import Mathlib

/-!
Shallow embedding of the space-weather forecast service (`src/app/main.py`).

The service reads rows `(forecast_timestamp : text, kp_index : real)` from a
SQLite table, buckets them into calendar days, classifies each day's peak
Kp index into a storm-severity level, and serves the result over HTTP with a
fixed fallback payload for degraded modes.

Python floats appearing here (Kp values, thresholds) are modelled as
rationals: every finite float is a rational, and the program only ever
compares and takes maxima of them, operations on which do not round.
Calendar dates are modelled as explicit (year, month, day) triples with the
proleptic-Gregorian rules `datetime` uses.
-/

namespace SpaceWeather

/-- A calendar date, as carried by `datetime.date`: (year, month, day). -/
structure Date where
  year : Nat
  month : Nat
  day : Nat
deriving DecidableEq, Repr

/-- Strict calendar order on dates: `datetime.date` comparison is
lexicographic on (year, month, day); sorting the keys of
`forecasts_by_day` by `date.isoformat()` strings coincides with this
order for all dates `datetime` can represent (years 1..9999, zero-padded
fields). -/
def Date.lt (a b : Date) : Prop :=
  a.year < b.year ∨ (a.year = b.year ∧
    (a.month < b.month ∨ (a.month = b.month ∧ a.day < b.day)))

instance : DecidableRel Date.lt := fun a b => by
  unfold Date.lt; infer_instance

/-- Non-strict calendar order on dates. -/
def Date.le (a b : Date) : Prop := Date.lt a b ∨ a = b

instance : DecidableRel Date.le := fun a b => by
  unfold Date.le; infer_instance

/-- Leap-year rule of the proleptic Gregorian calendar (`calendar.isleap`). -/
def isLeap (y : Nat) : Bool :=
  y % 4 == 0 && (y % 100 != 0 || y % 400 == 0)

/-- Number of days in a month, as `datetime` validates them. -/
def daysInMonth (y m : Nat) : Nat :=
  if m = 2 then (if isLeap y then 29 else 28)
  else if m = 4 ∨ m = 6 ∨ m = 9 ∨ m = 11 then 30
  else 31

/-- A date is one `datetime.date` accepts: year 1..9999, month 1..12,
day 1..(length of that month). -/
def Date.valid (d : Date) : Prop :=
  1 ≤ d.year ∧ d.year ≤ 9999 ∧ 1 ≤ d.month ∧ d.month ≤ 12 ∧
    1 ≤ d.day ∧ d.day ≤ daysInMonth d.year d.month

instance (d : Date) : Decidable d.valid := by
  unfold Date.valid; infer_instance

/-- `today + timedelta(days=1)`: the next calendar day. -/
def Date.succ (d : Date) : Date :=
  if d.day < daysInMonth d.year d.month then ⟨d.year, d.month, d.day + 1⟩
  else if d.month < 12 then ⟨d.year, d.month + 1, 1⟩
  else ⟨d.year + 1, 1, 1⟩

/-- Days in the months of year `y` strictly before month `m`
(`_days_before_month` in `datetime`). -/
def daysBeforeMonth (y m : Nat) : Nat :=
  ((List.range (m - 1)).map (fun i => daysInMonth y (i + 1))).sum

/-- `datetime.date.toordinal()`: day count with 0001-01-01 ↦ 1. -/
def Date.toOrdinal (d : Date) : Nat :=
  let n := d.year - 1
  n * 365 + n / 4 - n / 100 + n / 400 + daysBeforeMonth d.year d.month + d.day

/-- `datetime.date.weekday()`: 0 = Monday .. 6 = Sunday
(0001-01-01 was a Monday). -/
def Date.weekday (d : Date) : Nat := (d.toOrdinal + 6) % 7

/-- A parsed timestamp, as `datetime.strptime(s, "%Y-%m-%d %H:%M:%S")`
produces: a calendar date plus hour/minute/second. -/
structure DateTime where
  date : Date
  hour : Nat
  minute : Nat
  second : Nat
deriving DecidableEq, Repr

/-- Numeric value of a decimal digit character. -/
def digitVal (c : Char) : Nat := c.toNat - 48

/-- `%Y`: exactly four decimal digits (CPython compiles `%Y` to
`\d\d\d\d`). Returns the year and the unconsumed input. -/
def parseYear4 : List Char → Option (Nat × List Char)
  | a :: b :: c :: d :: rest =>
    if a.isDigit && b.isDigit && c.isDigit && d.isDigit then
      some (digitVal a * 1000 + digitVal b * 100 + digitVal c * 10 + digitVal d, rest)
    else none
  | _ => none

/-- A one-or-two-digit numeric field, mirroring the regex alternations
CPython compiles `%m`/`%d`/`%H`/`%M`/`%S` to: a two-digit reading is taken
when its value lies in `lo2..hi2`, otherwise a single digit `≥ lo1` is
taken (`lo2` is 1 for `%m`/`%d`, which exclude `00`, and 0 for the time
fields; `lo1` is 1 for `%m`/`%d` and 0 for the time fields). -/
def parseField (lo2 hi2 lo1 : Nat) : List Char → Option (Nat × List Char)
  | [] => none
  | [c] =>
    if c.isDigit && lo1 ≤ digitVal c then some (digitVal c, []) else none
  | c1 :: c2 :: rest =>
    if c1.isDigit then
      if c2.isDigit then
        let v := digitVal c1 * 10 + digitVal c2
        if lo2 ≤ v && v ≤ hi2 then some (v, rest)
        else if lo1 ≤ digitVal c1 then some (digitVal c1, c2 :: rest)
        else none
      else if lo1 ≤ digitVal c1 then some (digitVal c1, c2 :: rest)
      else none
    else none

/-- One literal character of the format string. -/
def parseLit (ch : Char) : List Char → Option (List Char)
  | [] => none
  | c :: rest => if c = ch then some rest else none

/-- `datetime.strptime(s, "%Y-%m-%d %H:%M:%S")`: `none` models the
`ValueError` raised either by the format match (shape or field-range
mismatch, unconverted trailing data) or by the `datetime` constructor
(month length, year 0, leap seconds 60/61 that the `%S` pattern admits
but `datetime` rejects). -/
def strptime (s : String) : Option DateTime := do
  let cs0 := s.toList
  let (y, cs1) ← parseYear4 cs0
  let cs2 ← parseLit '-' cs1
  let (mo, cs3) ← parseField 1 12 1 cs2
  let cs4 ← parseLit '-' cs3
  let (d, cs5) ← parseField 1 31 1 cs4
  let cs6 ← parseLit ' ' cs5
  let (h, cs7) ← parseField 0 23 0 cs6
  let cs8 ← parseLit ':' cs7
  let (mi, cs9) ← parseField 0 59 0 cs8
  let cs10 ← parseLit ':' cs9
  let (sec, cs11) ← parseField 0 61 0 cs10
  if cs11 = [] && 1 ≤ y && d ≤ daysInMonth y mo && sec ≤ 59 then
    some ⟨⟨y, mo, d⟩, h, mi, sec⟩
  else none

/-- Zero-pad a number below 100 to two digits, as `strftime` does. -/
def pad2 (n : Nat) : String := if n < 10 then "0" ++ toString n else toString n

/-- `timestamp.strftime("%H:%M")`. -/
def timeHM (t : DateTime) : String := pad2 t.hour ++ ":" ++ pad2 t.minute

/-- English month names for `%B` (C locale), 1-indexed. -/
def monthNames : List String :=
  ["January", "February", "March", "April", "May", "June", "July",
   "August", "September", "October", "November", "December"]

/-- `date.strftime("%d %B")`. -/
def dateDM (d : Date) : String :=
  pad2 d.day ++ " " ++ monthNames.getD (d.month - 1) ""

/-- One row of the `kp_forecasts_3day` table as the endpoints read it:
the raw text timestamp and the numeric Kp index. (A well-formed row of
the upstream table carries a numeric `kp_index`; the spec's data model
gives `kpIndex` domain [0, 9], so the NULL case is outside it.) -/
structure Row where
  forecast_timestamp : String
  kp_index : ℚ
deriving DecidableEq, Repr

/-- `get_storm_level(kp_index)` (main.py lines 260-267): classification
of a Kp value by inclusive lower bounds, highest threshold first. -/
def get_storm_level (kp_index : ℚ) : String :=
  if kp_index ≥ 9 then "Экстремальная буря"
  else if kp_index ≥ 8 then "Очень сильная буря"
  else if kp_index ≥ 7 then "Сильная буря"
  else if kp_index ≥ 6 then "Умеренная буря"
  else if kp_index ≥ 5 then "Небольшая буря"
  else "Спокойное"

/-- Russian weekday names, Monday first (`days_ru` in `get_day_name`). -/
def days_ru : List String :=
  ["Понедельник", "Вторник", "Среда", "Четверг", "Пятница", "Суббота", "Воскресенье"]

/-- `get_day_name(date)` (main.py lines 249-258); `today` stands for the
`datetime.now().date()` the source reads inside the function. -/
def get_day_name (today date : Date) : String :=
  if date = today then "Сегодня"
  else if date = Date.succ today then "Завтра"
  else days_ru.getD date.weekday ""

/-- `get_warning_message(storm_level)` (main.py lines 269-279): the fixed
message table, with a generic monitoring message for unknown keys. -/
def get_warning_message (storm_level : String) : String :=
  if storm_level = "Спокойное" then "Геомагнитная обстановка спокойная"
  else if storm_level = "Небольшая буря" then "Возможны незначительные колебания"
  else if storm_level = "Умеренная буря" then "Внимание! Умеренная магнитная буря"
  else if storm_level = "Сильная буря" then "Осторожно! Сильная магнитная буря"
  else if storm_level = "Очень сильная буря" then "ВНИМАНИЕ! Очень сильная магнитная буря"
  else if storm_level = "Экстремальная буря" then "КРИТИЧЕСКО! Экстремальная магнитная буря"
  else "Мониторинг геомагнитной активности"

/-- The `"data"` sub-object of one day: parallel lists of Kp values and
`"%H:%M"` time strings, filled by appends in input order. -/
structure DayData where
  values : List ℚ
  times : List String
deriving DecidableEq, Repr

/-- One entry of `forecasts_by_day` / one element of the response's
`days` list: relative-day label, `"%d %B"` date string, storm level,
and the series data. -/
structure DayForecast where
  day : String
  date : String
  stormLevel : String
  data : DayData
deriving DecidableEq, Repr

/-- The fresh `forecasts_by_day[date_key]` entry built when a date is
first seen (main.py lines 203-213). -/
def freshDay (today d : Date) : DayForecast :=
  { day := get_day_name today d
    date := dateDM d
    stormLevel := "Спокойное"
    data := { values := [], times := [] } }

/-- The two `append`s of the loop body (main.py lines 215-217). -/
def DayForecast.addPoint (f : DayForecast) (kp : ℚ) (t : String) : DayForecast :=
  { f with data := { values := f.data.values ++ [kp], times := f.data.times ++ [t] } }

/-- One retained sample lands in `forecasts_by_day`: the entry keyed by
its date is created if absent (insertion order preserved, as in a Python
dict) and the sample's value/time are appended to it. -/
def addSample (today : Date) (ts : DateTime) (kp : ℚ) :
    List (Date × DayForecast) → List (Date × DayForecast)
  | [] => [(ts.date, (freshDay today ts.date).addPoint kp (timeHM ts))]
  | (k, v) :: rest =>
    if k = ts.date then (k, v.addPoint kp (timeHM ts)) :: rest
    else (k, v) :: addSample today ts kp rest

/-- One iteration of the `for row in rows` loop of
`process_real_forecast_data` (main.py lines 185-217): a row whose
timestamp fails to parse is skipped (the `except: continue`), a row
dated strictly before `today` is skipped, every other row is added to
the dict under its calendar date. -/
def stepRow (today : Date) (m : List (Date × DayForecast)) (row : Row) :
    List (Date × DayForecast) :=
  match strptime row.forecast_timestamp with
  | none => m
  | some ts =>
    if Date.lt ts.date today then m
    else addSample today ts row.kp_index m

/-- `forecasts_by_day` after the whole loop, keyed by calendar date,
threading the dict as an insertion-ordered association list. -/
def buildByDay (today : Date) (rows : List Row) : List (Date × DayForecast) :=
  rows.foldl (stepRow today) []

/-- A row survives the stale-date check: its timestamp either fails to
parse (it is then skipped for that reason instead) or parses to a date
not strictly before `today`. -/
def keepRow (today : Date) (r : Row) : Bool :=
  match strptime r.forecast_timestamp with
  | none => true
  | some ts => !(decide (Date.lt ts.date today))

/-- A row's timestamp parses, i.e. `datetime.strptime` does not raise. -/
def parseOkRow (r : Row) : Bool := (strptime r.forecast_timestamp).isSome

/-- Order on dict entries by key date, used to embed
`sorted(forecasts_by_day.items(), key=lambda x: x[0])`: the keys are ISO
date strings, whose lexicographic order is calendar order. -/
def keyLe (a b : Date × DayForecast) : Prop := Date.le a.1 b.1

instance : DecidableRel keyLe := fun a b => by
  unfold keyLe; infer_instance

/-- `sorted_days` (main.py line 220): the dict's entries sorted by date.
The keys are pairwise distinct, so any sorting algorithm yields the same
list as Python's `sorted`. -/
def sorted_days (today : Date) (rows : List Row) : List (Date × DayForecast) :=
  List.insertionSort keyLe (buildByDay today rows)

/-- `days_list` (main.py line 221): the first three days' entries. -/
def days_list (today : Date) (rows : List Row) : List DayForecast :=
  ((sorted_days today rows).take 3).map Prod.snd

/-- Python `max` over a nonempty list: a left fold of binary max. -/
def maxList (v : ℚ) (vs : List ℚ) : ℚ := vs.foldl max v

/-- The storm-level assignment loop body (main.py lines 224-229): a day
with a nonempty series gets the classification of its maximum Kp, an
empty one stays at the calmest level. -/
def setStorm (f : DayForecast) : DayForecast :=
  match f.data.values with
  | [] => { f with stormLevel := "Спокойное" }
  | v :: vs => { f with stormLevel := get_storm_level (maxList v vs) }

/-- `current_storm` (main.py lines 232-235): classification of the first
day's maximum Kp when a first day with data exists, else calmest. -/
def current_storm (today : Date) (rows : List Row) : String :=
  match days_list today rows with
  | [] => "Спокойное"
  | f :: _ =>
    match f.data.values with
    | [] => "Спокойное"
    | v :: vs => get_storm_level (maxList v vs)

/-- The top-level JSON object `/api/forecast` returns. -/
structure ForecastResponse where
  location : String
  currentStorm : String
  warning : String
  days : List DayForecast
deriving DecidableEq, Repr

/-- `process_real_forecast_data(rows)` (main.py lines 178-248); `today`
stands for the `datetime.now().date()` the source reads inside. -/
def process_real_forecast_data (rows : List Row) (today : Date) : ForecastResponse :=
  { location := "Москва"
    currentStorm := current_storm today rows
    warning := get_warning_message (current_storm today rows)
    days := (days_list today rows).map setStorm }

/-- `get_fallback_forecast()` (main.py lines 149-176): the fixed
degraded-mode payload. -/
def get_fallback_forecast (today : Date) : ForecastResponse :=
  { location := "Москва"
    currentStorm := "Слабая буря"
    warning := "Данные обновляются"
    days :=
      [ { day := "Сегодня"
          date := dateDM today
          stormLevel := "Слабая буря"
          data := { values := [3, 4, 5, 4, 3, 4, 3, 4]
                    times := ["06:00", "09:00", "12:00", "15:00",
                              "18:00", "21:00", "00:00", "03:00"] } },
        { day := "Завтра"
          date := dateDM (Date.succ today)
          stormLevel := "Слабая буря"
          data := { values := [4, 3, 4, 5, 4, 3, 4, 3]
                    times := ["06:00", "09:00", "12:00", "15:00",
                              "18:00", "21:00", "00:00", "03:00"] } } ] }

/-- The spec's `buildForecast(samples, now)`: the body of
`get_3day_forecast` once the query result `rows` is in hand (main.py
lines 139-143) — empty rows yield the fallback, otherwise the rows are
aggregated. -/
def buildForecast (rows : List Row) (today : Date) : ForecastResponse :=
  if rows = [] then get_fallback_forecast today
  else process_real_forecast_data rows today

/-- The state an incoming request finds: whether the database file
exists at `DB_PATH` (`os.path.exists`), whether executing the endpoint's
query raises, and the rows the query returns when it succeeds (for
`/api/forecast`: timestamps ≥ now, ascending, limit 48 — the SQL is the
external Data Access collaborator). -/
structure Store where
  file_exists : Bool
  query_ok : Bool
  rows : List Row
deriving DecidableEq, Repr

/-- An HTTP outcome: a JSON body, or an error status as produced by an
uncaught `HTTPException`. -/
inductive Response (α : Type) where
  | ok (body : α)
  | httpError (status : Nat)
deriving DecidableEq, Repr

/-- `get_db_conn` (main.py lines 36-50): the FastAPI dependency. When
the database file is missing it raises `HTTPException(500)` before
yielding, so the endpoint body never runs and the client receives the
error; otherwise it yields the connection. -/
def get_db_conn (s : Store) : Except Nat Store :=
  if s.file_exists then Except.ok s else Except.error 500

/-- The `/api/forecast` request pipeline: dependency resolution, then
`get_3day_forecast` (main.py lines 124-147), whose own `try/except`
turns any exception raised inside the body (modelled by `query_ok =
false`) into the fallback. `today` stands for `datetime.now().date()`. -/
def api_forecast (s : Store) (today : Date) : Response ForecastResponse :=
  match get_db_conn s with
  | Except.error code => Response.httpError code
  | Except.ok conn =>
    if conn.query_ok then Response.ok (buildForecast conn.rows today)
    else Response.ok (get_fallback_forecast today)

/-- The `/dbinfo` diagnostic pipeline (main.py lines 63-87), reduced to
its outcome shape: a missing store fails the dependency with a 500; an
exception inside the body is re-raised as `HTTPException(500)`; success
returns the diagnostic body (content abstracted). -/
def api_dbinfo (s : Store) : Response Unit :=
  match get_db_conn s with
  | Except.error code => Response.httpError code
  | Except.ok conn =>
    if conn.query_ok then Response.ok () else Response.httpError 500

/-- The JSON object `/api/status` returns: the latest sample (timestamp
and Kp) or `null`, and a storm-level string. -/
structure StatusResponse where
  current_kp : Option (String × ℚ)
  storm_level : String
deriving DecidableEq, Repr

/-- `get_current_status` (main.py lines 89-122) on the result of its
`ORDER BY forecast_timestamp DESC LIMIT 1` query: `rows` is the stored
table in that query order, so `fetchone()` is its head. The source's
inline threshold chain is reproduced verbatim; its `kp is not None`
guard is identically satisfied since a well-formed row carries a numeric
Kp. No branch raises, so the `except` arm (line 120) is unreachable. -/
def get_current_status (rows : List Row) : StatusResponse :=
  match rows.head? with
  | none => { current_kp := none, storm_level := "Нет данных" }
  | some row =>
    let kp := row.kp_index
    let storm_level :=
      if kp ≥ 9 then "Экстремальная буря"
      else if kp ≥ 8 then "Очень сильная буря"
      else if kp ≥ 7 then "Сильная буря"
      else if kp ≥ 6 then "Умеренная буря"
      else if kp ≥ 5 then "Небольшая буря"
      else "Спокойное"
    { current_kp := some (row.forecast_timestamp, kp), storm_level := storm_level }

/-- Severity rank of the storm-level strings, for the monotonicity
property: calmest 0 up to extreme 5; strings outside the table rank 0. -/
def severityRank (s : String) : Nat :=
  if s = "Небольшая буря" then 1
  else if s = "Умеренная буря" then 2
  else if s = "Сильная буря" then 3
  else if s = "Очень сильная буря" then 4
  else if s = "Экстремальная буря" then 5
  else 0

/-! ## Theorems -/

/-- C1: `get_storm_level` is a pure function of kp evaluated
highest-threshold-first with inclusive lower bounds: kp ≥ 9 is Extreme
("Экстремальная буря"), kp ≥ 8 Very strong, kp ≥ 7 Strong, kp ≥ 6
Moderate, kp ≥ 5 Minor, and anything below 5 the calmest level
("Спокойное"); in particular classify(9.0) = classify(9.5) = Extreme
and classify(4.999) = Calm. -/
theorem get_storm_level_bands (kp : ℚ) :
    (9 ≤ kp → get_storm_level kp = "Экстремальная буря") ∧
    (8 ≤ kp → kp < 9 → get_storm_level kp = "Очень сильная буря") ∧
    (7 ≤ kp → kp < 8 → get_storm_level kp = "Сильная буря") ∧
    (6 ≤ kp → kp < 7 → get_storm_level kp = "Умеренная буря") ∧
    (5 ≤ kp → kp < 6 → get_storm_level kp = "Небольшая буря") ∧
    (kp < 5 → get_storm_level kp = "Спокойное") ∧
    get_storm_level 9 = "Экстремальная буря" ∧
    get_storm_level (19 / 2) = "Экстремальная буря" ∧
    get_storm_level (4999 / 1000) = "Спокойное" := by
  refine ⟨fun h1 => ?_, fun h1 h2 => ?_, fun h1 h2 => ?_, fun h1 h2 => ?_,
    fun h1 h2 => ?_, fun h1 => ?_, ?_, ?_, ?_⟩ <;>
    unfold get_storm_level
  · rw [if_pos (by linarith : kp ≥ 9)]
  · rw [if_neg (by linarith : ¬ kp ≥ 9), if_pos (by linarith : kp ≥ 8)]
  · rw [if_neg (by linarith : ¬ kp ≥ 9), if_neg (by linarith : ¬ kp ≥ 8),
      if_pos (by linarith : kp ≥ 7)]
  · rw [if_neg (by linarith : ¬ kp ≥ 9), if_neg (by linarith : ¬ kp ≥ 8),
      if_neg (by linarith : ¬ kp ≥ 7), if_pos (by linarith : kp ≥ 6)]
  · rw [if_neg (by linarith : ¬ kp ≥ 9), if_neg (by linarith : ¬ kp ≥ 8),
      if_neg (by linarith : ¬ kp ≥ 7), if_neg (by linarith : ¬ kp ≥ 6),
      if_pos (by linarith : kp ≥ 5)]
  · rw [if_neg (by linarith : ¬ kp ≥ 9), if_neg (by linarith : ¬ kp ≥ 8),
      if_neg (by linarith : ¬ kp ≥ 7), if_neg (by linarith : ¬ kp ≥ 6),
      if_neg (by linarith : ¬ kp ≥ 5)]
  · norm_num
  · norm_num
  · norm_num

/-- Witness for C1 at the concrete input kp = 13/2 = 6.5. -/
theorem get_storm_level_bands_witness :
    get_storm_level (13 / 2) = "Умеренная буря" :=
  (get_storm_level_bands (13 / 2)).2.2.2.1 (by norm_num) (by norm_num)

/-- C9: the classification is monotonic: if kp1 ≤ kp2 then the severity
rank of `get_storm_level kp1` is at most that of `get_storm_level kp2`,
under calmest < Minor < Moderate < Strong < Very strong < Extreme. -/
theorem get_storm_level_monotone (kp1 kp2 : ℚ) (h : kp1 ≤ kp2) :
    severityRank (get_storm_level kp1) ≤ severityRank (get_storm_level kp2) := by
  unfold get_storm_level
  split_ifs <;> first | decide | linarith

/-- Witness for C9 at the concrete inputs 3 ≤ 19/2. -/
theorem get_storm_level_monotone_witness :
    severityRank (get_storm_level 3) ≤ severityRank (get_storm_level (19 / 2)) :=
  get_storm_level_monotone 3 (19 / 2) (by norm_num)

/-- C5: empty input to `buildForecast` yields the exact fixed fallback
structure: two days, "Сегодня" with values [3,4,5,4,3,4,3,4] and
"Завтра" with values [4,3,4,5,4,3,4,3], each with the fixed weak-storm
classification "Слабая буря", and the data-updating warning
"Данные обновляются". -/
theorem buildForecast_empty (today : Date) :
    buildForecast [] today =
      { location := "Москва"
        currentStorm := "Слабая буря"
        warning := "Данные обновляются"
        days :=
          [ { day := "Сегодня"
              date := dateDM today
              stormLevel := "Слабая буря"
              data := { values := [3, 4, 5, 4, 3, 4, 3, 4]
                        times := ["06:00", "09:00", "12:00", "15:00",
                                  "18:00", "21:00", "00:00", "03:00"] } },
            { day := "Завтра"
              date := dateDM (Date.succ today)
              stormLevel := "Слабая буря"
              data := { values := [4, 3, 4, 5, 4, 3, 4, 3]
                        times := ["06:00", "09:00", "12:00", "15:00",
                                  "18:00", "21:00", "00:00", "03:00"] } } ] } := rfl

/-- C8: with no rows in the store, the status operation returns a null
current-kp together with the "Нет данных" sentinel (and, being a total
function, raises nothing). -/
theorem get_current_status_empty :
    get_current_status [] = { current_kp := none, storm_level := "Нет данных" } := rfl

/-- Counterexample to C2 as stated: with the store file missing, a
request to the forecast endpoint yields the uncaught `HTTPException`
as a 500 response, not the fixed fallback body. -/
theorem store_unavailable_counterexample :
    api_forecast ⟨false, true, []⟩ ⟨2024, 1, 1⟩ = Response.httpError 500 ∧
    api_forecast ⟨false, true, []⟩ ⟨2024, 1, 1⟩ ≠
      Response.ok (get_fallback_forecast ⟨2024, 1, 1⟩) :=
  ⟨rfl, fun h => Response.noConfusion h⟩

/-- C2 (amended): when the store file is missing, the dependency's
`HTTPException(500)` is surfaced for the forecast endpoint exactly as
for the diagnostic endpoint — a server-error response, not the
fallback; the fallback absorbs only failures raised inside the forecast
endpoint body (e.g. a failing query), which the diagnostic endpoint
still surfaces as a 500. -/
theorem store_unavailable_surfaced (s : Store) (today : Date) :
    (s.file_exists = false →
      api_forecast s today = Response.httpError 500 ∧
      api_dbinfo s = Response.httpError 500) ∧
    (s.file_exists = true → s.query_ok = false →
      api_forecast s today = Response.ok (get_fallback_forecast today) ∧
      api_dbinfo s = Response.httpError 500) := by
  obtain ⟨fe, qo, rows⟩ := s
  constructor
  · rintro rfl
    exact ⟨rfl, rfl⟩
  · rintro rfl rfl
    exact ⟨rfl, rfl⟩

/-- Witness for C2's amended theorem at a concrete store with the file
missing, and at one whose query raises. -/
theorem store_unavailable_surfaced_witness :
    (api_forecast ⟨false, true, []⟩ ⟨2024, 1, 1⟩ = Response.httpError 500 ∧
      api_dbinfo ⟨false, true, []⟩ = Response.httpError 500) ∧
    (api_forecast ⟨true, false, []⟩ ⟨2024, 1, 1⟩ =
        Response.ok (get_fallback_forecast ⟨2024, 1, 1⟩) ∧
      api_dbinfo ⟨true, false, []⟩ = Response.httpError 500) :=
  ⟨(store_unavailable_surfaced ⟨false, true, []⟩ ⟨2024, 1, 1⟩).1 rfl,
   (store_unavailable_surfaced ⟨true, false, []⟩ ⟨2024, 1, 1⟩).2 rfl rfl⟩

/-- Setting the storm level of a day with an empty series. -/
theorem setStorm_nil (f : DayForecast) (h : f.data.values = []) :
    setStorm f = { f with stormLevel := "Спокойное" } := by
  unfold setStorm
  rw [h]

/-- Setting the storm level of a day with a nonempty series. -/
theorem setStorm_cons (f : DayForecast) (v : ℚ) (vs : List ℚ)
    (h : f.data.values = v :: vs) :
    setStorm f = { f with stormLevel := get_storm_level (maxList v vs) } := by
  unfold setStorm
  rw [h]

/-- The storm-level assignment leaves the series data untouched. -/
theorem setStorm_data (f : DayForecast) : (setStorm f).data = f.data := by
  cases hv : f.data.values with
  | nil => rw [setStorm_nil f hv]
  | cons v vs => rw [setStorm_cons f v vs hv]

/-- Updating the storm level leaves the data field unchanged. -/
theorem data_set_stormLevel (f : DayForecast) (s : String) :
    ({ f with stormLevel := s } : DayForecast).data = f.data := rfl

/-- C6: every day in the aggregated response has as its storm level the
classification of the maximum Kp index of that day's series ("Спокойное"
for an empty series). -/
theorem day_stormLevel_max (rows : List Row) (today : Date) (f : DayForecast)
    (hf : f ∈ (process_real_forecast_data rows today).days) :
    (f.data.values = [] → f.stormLevel = "Спокойное") ∧
    (∀ v vs, f.data.values = v :: vs →
      f.stormLevel = get_storm_level (maxList v vs)) := by
  obtain ⟨g, hg, rfl⟩ := List.mem_map.1 hf
  cases hv : g.data.values with
  | nil =>
    rw [setStorm_nil g hv]
    constructor
    · intro h0
      rfl
    · intro v vs hvv
      rw [data_set_stormLevel, hv] at hvv
      exact absurd hvv (by simp)
  | cons v vs =>
    rw [setStorm_cons g v vs hv]
    constructor
    · intro h0
      rw [data_set_stormLevel, hv] at h0
      exact absurd h0 (by simp)
    · intro v2 vs2 hvv
      rw [data_set_stormLevel, hv] at hvv
      injection hvv with h1 h2
      subst h1
      subst h2
      rfl

/-- Witness for C6 at a concrete one-row input: the produced day carries
the classification of its maximum Kp. -/
theorem day_stormLevel_max_witness :
    ({ day := "Сегодня", date := "01 January", stormLevel := "Спокойное"
       data := { values := [3], times := ["06:00"] } } : DayForecast).stormLevel =
      get_storm_level (maxList 3 []) :=
  (day_stormLevel_max [⟨"2024-01-01 06:00:00", 3⟩] ⟨2024, 1, 1⟩ _ (by decide)).2 3 [] rfl

/-- Any invariant of the accumulator preserved by one loop step holds
after folding the whole row list. -/
theorem foldl_stepRow_inv (today : Date) (P : List (Date × DayForecast) → Prop)
    (hstep : ∀ m r, P m → P (stepRow today m r)) :
    ∀ (rows : List Row) (m : List (Date × DayForecast)),
      P m → P (rows.foldl (stepRow today) m) := by
  intro rows
  induction rows with
  | nil => intro m h; exact h
  | cons r rest ih => intro m h; exact ih _ (hstep m r h)

/-- Every entry of `addSample today ts kp m` is an entry of `m`, an
entry of `m` with the new point appended, or the fresh entry for
`ts.date` holding just the new point. -/
theorem addSample_mem (today : Date) (ts : DateTime) (kp : ℚ) :
    ∀ (m : List (Date × DayForecast)) (p : Date × DayForecast),
      p ∈ addSample today ts kp m →
        (∃ q ∈ m, p = (q.1, q.2.addPoint kp (timeHM ts))) ∨
        p = (ts.date, (freshDay today ts.date).addPoint kp (timeHM ts)) ∨
        p ∈ m := by
  intro m
  induction m with
  | nil =>
    intro p hp
    simp only [addSample, List.mem_singleton] at hp
    exact Or.inr (Or.inl hp)
  | cons q rest ih =>
    intro p hp
    obtain ⟨k, v⟩ := q
    by_cases hk : k = ts.date
    · simp only [addSample, if_pos hk, List.mem_cons] at hp
      rcases hp with h | h
      · exact Or.inl ⟨(k, v), List.mem_cons_self _ _, h⟩
      · exact Or.inr (Or.inr (List.mem_cons_of_mem _ h))
    · simp only [addSample, if_neg hk, List.mem_cons] at hp
      rcases hp with h | h
      · exact Or.inr (Or.inr (h ▸ List.mem_cons_self _ _))
      · rcases ih p h with ⟨q2, hq2, hpq⟩ | h2 | h2
        · exact Or.inl ⟨q2, List.mem_cons_of_mem _ hq2, hpq⟩
        · exact Or.inr (Or.inl h2)
        · exact Or.inr (Or.inr (List.mem_cons_of_mem _ h2))

/-- Appending one point grows both parallel lists by one, preserving
equality of their lengths. -/
theorem addPoint_lengths (f : DayForecast) (kp : ℚ) (t : String)
    (h : f.data.values.length = f.data.times.length) :
    (f.addPoint kp t).data.values.length = (f.addPoint kp t).data.times.length := by
  simp [DayForecast.addPoint, h]

/-- One loop step preserves the equal-lengths invariant of every entry. -/
theorem stepRow_lengths (today : Date) (m : List (Date × DayForecast)) (r : Row)
    (h : ∀ p ∈ m, p.2.data.values.length = p.2.data.times.length) :
    ∀ p ∈ stepRow today m r, p.2.data.values.length = p.2.data.times.length := by
  unfold stepRow
  cases hts : strptime r.forecast_timestamp with
  | none => exact h
  | some ts =>
    dsimp only
    by_cases hlt : Date.lt ts.date today
    · rw [if_pos hlt]; exact h
    · rw [if_neg hlt]
      intro p hp
      rcases addSample_mem today ts r.kp_index m p hp with ⟨q, hq, rfl⟩ | rfl | hpm
      · exact addPoint_lengths _ _ _ (h q hq)
      · simp [freshDay, DayForecast.addPoint]
      · exact h p hpm

/-- C10: in every day produced by the aggregation from non-empty input,
the values list and the times list have equal length, so the series is
a well-formed sequence of (time, kp) pairs. -/
theorem day_series_lengths (rows : List Row) (today : Date) (f : DayForecast)
    (hrows : rows ≠ []) (hf : f ∈ (buildForecast rows today).days) :
    f.data.values.length = f.data.times.length := by
  rw [buildForecast, if_neg hrows] at hf
  obtain ⟨g, hg, rfl⟩ := List.mem_map.1 hf
  obtain ⟨p, hp, rfl⟩ := List.mem_map.1 hg
  have hpS : p ∈ sorted_days today rows := List.take_subset 3 _ hp
  have hpB : p ∈ buildByDay today rows :=
    (List.perm_insertionSort keyLe _).mem_iff.1 hpS
  have hinv : ∀ q ∈ buildByDay today rows,
      q.2.data.values.length = q.2.data.times.length :=
    foldl_stepRow_inv today
      (fun m => ∀ q ∈ m, q.2.data.values.length = q.2.data.times.length)
      (fun m r h => stepRow_lengths today m r h) rows [] (by simp)
  rw [setStorm_data]
  exact hinv p hpB

/-- Witness for C10 at a concrete one-row input. -/
theorem day_series_lengths_witness :
    ({ day := "Сегодня", date := "01 January", stormLevel := "Спокойное"
       data := { values := [3], times := ["06:00"] } } : DayForecast).data.values.length =
      ({ day := "Сегодня", date := "01 January", stormLevel := "Спокойное"
         data := { values := [3], times := ["06:00"] } } : DayForecast).data.times.length :=
  day_series_lengths [⟨"2024-01-01 06:00:00", 3⟩] ⟨2024, 1, 1⟩ _
    (List.cons_ne_nil _ _) (by decide)

instance : IsTotal (Date × DayForecast) keyLe :=
  ⟨by
    intro a b
    obtain ⟨⟨y1, m1, d1⟩, v1⟩ := a
    obtain ⟨⟨y2, m2, d2⟩, v2⟩ := b
    unfold keyLe Date.le Date.lt
    simp only [Date.mk.injEq]
    omega⟩

instance : IsTrans (Date × DayForecast) keyLe :=
  ⟨by
    intro a b c hab hbc
    obtain ⟨⟨y1, m1, d1⟩, v1⟩ := a
    obtain ⟨⟨y2, m2, d2⟩, v2⟩ := b
    obtain ⟨⟨y3, m3, d3⟩, v3⟩ := c
    unfold keyLe Date.le Date.lt at *
    simp only [Date.mk.injEq] at *
    omega⟩

/-- Adding a sample leaves the key list unchanged when the sample's
date is already a key, and appends the date as a key otherwise. -/
theorem addSample_keys (today : Date) (ts : DateTime) (kp : ℚ) :
    ∀ m : List (Date × DayForecast),
      (addSample today ts kp m).map Prod.fst =
        if ts.date ∈ m.map Prod.fst then m.map Prod.fst
        else m.map Prod.fst ++ [ts.date] := by
  intro m
  induction m with
  | nil => simp [addSample]
  | cons q rest ih =>
    obtain ⟨k, v⟩ := q
    by_cases hk : k = ts.date
    · subst hk
      simp [addSample]
    · simp only [addSample, if_neg hk, List.map_cons]
      rw [ih]
      by_cases hmem : ts.date ∈ rest.map Prod.fst
      · rw [if_pos hmem, if_pos (List.mem_cons_of_mem _ hmem)]
      · rw [if_neg hmem,
          if_neg (fun hc => (List.mem_cons.1 hc).elim (fun h => hk h.symm) hmem),
          List.cons_append]

/-- One loop step preserves distinctness of the dict's keys. -/
theorem stepRow_keys_nodup (today : Date) (m : List (Date × DayForecast)) (r : Row)
    (h : (m.map Prod.fst).Nodup) : ((stepRow today m r).map Prod.fst).Nodup := by
  unfold stepRow
  cases hts : strptime r.forecast_timestamp with
  | none => exact h
  | some ts =>
    dsimp only
    by_cases hlt : Date.lt ts.date today
    · rw [if_pos hlt]; exact h
    · rw [if_neg hlt, addSample_keys]
      by_cases hmem : ts.date ∈ m.map Prod.fst
      · rw [if_pos hmem]; exact h
      · rw [if_neg hmem]
        simp [List.nodup_append, h, hmem]

/-- The dict built by the loop has pairwise-distinct date keys. -/
theorem buildByDay_keys_nodup (today : Date) (rows : List Row) :
    ((buildByDay today rows).map Prod.fst).Nodup :=
  foldl_stepRow_inv today (fun m => (m.map Prod.fst).Nodup)
    (fun m r h => stepRow_keys_nodup today m r h) rows [] (by simp)

/-- Sorting the dict entries keeps the keys pairwise distinct. -/
theorem sorted_days_keys_nodup (today : Date) (rows : List Row) :
    ((sorted_days today rows).map Prod.fst).Nodup :=
  (((List.perm_insertionSort keyLe (buildByDay today rows)).map Prod.fst).nodup_iff).2
    (buildByDay_keys_nodup today rows)

/-- C3: on non-empty input the forecast has at most 3 days; those days
are exactly the per-date entries taken, in order, from the date-sorted
dict, whose retained dates are strictly ascending (hence duplicate-free). -/
theorem buildForecast_days_sorted (rows : List Row) (today : Date) (hrows : rows ≠ []) :
    (buildForecast rows today).days.length ≤ 3 ∧
    (buildForecast rows today).days =
      (((sorted_days today rows).take 3).map Prod.snd).map setStorm ∧
    List.Pairwise Date.lt (((sorted_days today rows).take 3).map Prod.fst) := by
  have hsort : List.Pairwise keyLe (sorted_days today rows) :=
    List.sorted_insertionSort keyLe (buildByDay today rows)
  have hne : List.Pairwise (fun a b : Date × DayForecast => a.1 ≠ b.1)
      (sorted_days today rows) :=
    List.pairwise_map.1 (sorted_days_keys_nodup today rows)
  have hlt : List.Pairwise (fun a b : Date × DayForecast => Date.lt a.1 b.1)
      (sorted_days today rows) :=
    (hsort.and hne).imp (fun h => Or.resolve_right h.1 h.2)
  have htake : List.Pairwise (fun a b : Date × DayForecast => Date.lt a.1 b.1)
      ((sorted_days today rows).take 3) :=
    hlt.sublist (List.take_sublist 3 _)
  refine ⟨?_, ?_, List.pairwise_map.2 htake⟩
  · rw [buildForecast, if_neg hrows]
    show ((days_list today rows).map setStorm).length ≤ 3
    rw [List.length_map]
    unfold days_list
    rw [List.length_map, List.length_take]
    omega
  · rw [buildForecast, if_neg hrows]
    rfl

/-- Witness for C3 at a concrete one-row input. -/
theorem buildForecast_days_sorted_witness :
    (buildForecast [⟨"2024-01-01 06:00:00", 3⟩] ⟨2024, 1, 1⟩).days.length ≤ 3 :=
  (buildForecast_days_sorted [⟨"2024-01-01 06:00:00", 3⟩] ⟨2024, 1, 1⟩
    (List.cons_ne_nil _ _)).1

/-- A row that fails the stale-date check is a no-op for the loop. -/
theorem stepRow_stale (today : Date) (m : List (Date × DayForecast)) (r : Row)
    (h : keepRow today r = false) : stepRow today m r = m := by
  unfold keepRow at h
  unfold stepRow
  cases hts : strptime r.forecast_timestamp with
  | none => rfl
  | some ts =>
    rw [hts] at h
    simp only [Bool.not_eq_false', decide_eq_true_eq] at h
    dsimp only
    rw [if_pos h]

/-- A row whose timestamp fails to parse is a no-op for the loop. -/
theorem stepRow_malformed (today : Date) (m : List (Date × DayForecast)) (r : Row)
    (h : parseOkRow r = false) : stepRow today m r = m := by
  unfold parseOkRow at h
  unfold stepRow
  cases hts : strptime r.forecast_timestamp with
  | none => rfl
  | some ts => rw [hts] at h; simp at h

/-- One loop step keeps every dict key at or after `today`. -/
theorem stepRow_keys_ge (today : Date) (m : List (Date × DayForecast)) (r : Row)
    (h : ∀ d ∈ m.map Prod.fst, ¬ Date.lt d today) :
    ∀ d ∈ (stepRow today m r).map Prod.fst, ¬ Date.lt d today := by
  unfold stepRow
  cases hts : strptime r.forecast_timestamp with
  | none => exact h
  | some ts =>
    dsimp only
    by_cases hlt : Date.lt ts.date today
    · rw [if_pos hlt]; exact h
    · rw [if_neg hlt, addSample_keys]
      by_cases hmem : ts.date ∈ m.map Prod.fst
      · rw [if_pos hmem]; exact h
      · rw [if_neg hmem]
        intro d hd
        rcases List.mem_append.1 hd with h1 | h1
        · exact h d h1
        · rw [List.mem_singleton.1 h1]; exact hlt

/-- Dropping the rows a predicate rejects does not change the fold,
provided rejected rows are loop no-ops. -/
theorem foldl_stepRow_filter (today : Date) (q : Row → Bool)
    (hq : ∀ m r, q r = false → stepRow today m r = m) :
    ∀ (rows : List Row) (m : List (Date × DayForecast)),
      (rows.filter q).foldl (stepRow today) m = rows.foldl (stepRow today) m := by
  intro rows
  induction rows with
  | nil => intro m; rfl
  | cons r rest ih =>
    intro m
    cases h : q r with
    | true => rw [List.filter_cons_of_pos h, List.foldl_cons, List.foldl_cons, ih]
    | false =>
      rw [List.filter_cons_of_neg (by simp [h]), List.foldl_cons, ih, hq m r h]

/-- The whole response is a function of the per-day dict. -/
theorem process_congr (rows1 rows2 : List Row) (today : Date)
    (h : buildByDay today rows1 = buildByDay today rows2) :
    process_real_forecast_data rows1 today = process_real_forecast_data rows2 today := by
  unfold process_real_forecast_data current_storm days_list sorted_days
  rw [h]

/-- C4: samples dated strictly before `today` are discarded before
partitioning — the response on any input equals the response on the
input with its stale samples removed — and every date bucketed into
`sorted_days` (hence the date of every returned day) is at or after
`today`, so a stale sample never appears in any returned day's series. -/
theorem stale_samples_discarded (rows : List Row) (today : Date) :
    process_real_forecast_data rows today =
      process_real_forecast_data (rows.filter (keepRow today)) today ∧
    ∀ p ∈ sorted_days today rows, ¬ Date.lt p.1 today := by
  constructor
  · exact (process_congr _ _ today
      (foldl_stepRow_filter today (keepRow today) (stepRow_stale today) rows [])).symm
  · intro p hp
    have hkey : ∀ d ∈ (buildByDay today rows).map Prod.fst, ¬ Date.lt d today :=
      foldl_stepRow_inv today (fun m => ∀ d ∈ m.map Prod.fst, ¬ Date.lt d today)
        (fun m r h => stepRow_keys_ge today m r h) rows [] (by simp)
    have hpB : p ∈ buildByDay today rows :=
      (List.perm_insertionSort keyLe _).mem_iff.1 hp
    exact hkey p.1 (List.mem_map_of_mem Prod.fst hpB)

/-- Witness for C4 at a concrete one-row input whose single bucketed
date is not before `today`. -/
theorem stale_samples_discarded_witness :
    ¬ Date.lt (⟨2024, 1, 2⟩ : Date) ⟨2024, 1, 1⟩ :=
  (stale_samples_discarded [⟨"2024-01-02 12:00:00", 9⟩] ⟨2024, 1, 1⟩).2
    (⟨2024, 1, 2⟩,
      { day := "Завтра", date := "02 January", stormLevel := "Спокойное"
        data := { values := [9], times := ["12:00"] } })
    (by decide)

/-- C7: a sample with a malformed timestamp is skipped and processing
continues with the remaining samples — inserting such a sample anywhere
in the input leaves the (total, hence never-failing) response
unchanged. -/
theorem malformed_rows_skipped (rows1 rows2 : List Row) (r : Row) (today : Date)
    (h : strptime r.forecast_timestamp = none) :
    process_real_forecast_data (rows1 ++ r :: rows2) today =
      process_real_forecast_data (rows1 ++ rows2) today := by
  apply process_congr
  unfold buildByDay
  rw [List.foldl_append, List.foldl_append, List.foldl_cons]
  congr 1
  unfold stepRow
  rw [h]

/-- Witness for C7: inserting a row with timestamp "garbage" changes
nothing. -/
theorem malformed_rows_skipped_witness :
    process_real_forecast_data
        ([] ++ (⟨"garbage", 5⟩ : Row) :: [⟨"2024-01-01 06:00:00", 3⟩]) ⟨2024, 1, 1⟩ =
      process_real_forecast_data ([] ++ [(⟨"2024-01-01 06:00:00", 3⟩ : Row)]) ⟨2024, 1, 1⟩ :=
  malformed_rows_skipped [] [⟨"2024-01-01 06:00:00", 3⟩] ⟨"garbage", 5⟩ ⟨2024, 1, 1⟩ rfl

end SpaceWeather
